import Mathlib

/-!
Verification of `mag1c/target_generation.py` (unit absorption spectrum
generation).  The numerical pipeline is embedded shallowly over `ℝ`:
NumPy float arrays become lists of reals, `np.log`/`np.exp`/`np.log2`
become `Real.log`/`Real.exp`/`Real.logb 2`, and the external
`scipy.ndimage.map_coordinates` spline sampler over the external grid
artifact is abstracted as a function parameter (no claim depends on its
internals).  Names follow the source.
-/

/-- Embeds `get_5deg_zenith_angle_index`: `zenith_value / 5`. -/
noncomputable def get_5deg_zenith_angle_index (zenith_value : ℝ) : ℝ :=
  zenith_value / 5

/-- Embeds `get_5deg_sensor_height_index`: piecewise-linear mapping of the
sensor height (km) to a fractional grid index, anchored at grid nodes
{1, 2, 4, 10, 20, 200}. -/
noncomputable def get_5deg_sensor_height_index (sensor_value : ℝ) : ℝ :=
  if sensor_value < 1 then 0
  else if sensor_value < 2 then sensor_value - 1
  else if sensor_value < 4 then sensor_value / 2
  else if sensor_value < 10 then sensor_value / 6 + 4 / 3
  else if sensor_value < 20 then sensor_value / 10 + 2
  else if sensor_value < 200 then sensor_value / 180 + 35 / 9
  else 5

/-- Embeds `get_5deg_ground_altitude_index`. -/
noncomputable def get_5deg_ground_altitude_index (ground_value : ℝ) : ℝ :=
  if ground_value < 1 then 2 * ground_value else 1 + ground_value

/-- Embeds `get_5deg_water_vapor_index`: identity. -/
def get_5deg_water_vapor_index (water_value : ℝ) : ℝ :=
  water_value

/-- Embeds `get_5deg_methane_index`: `np.log2 (v / 500)` is `Real.logb 2`. -/
noncomputable def get_5deg_methane_index (methane_value : ℝ) : ℝ :=
  if methane_value ≤ 0 then 0
  else if methane_value < 1000 then methane_value / 1000
  else Real.logb 2 (methane_value / 500)

/-- Embeds the fixed concentration ladder
`np.asarray([0, 500, 1000, 2000, 4000, 8000, 16000, 32000])`. -/
def concentrations : List ℝ :=
  [0, 500, 1000, 2000, 4000, 8000, 16000, 32000]

/-- Value of `Real.logb 2` on powers of two. -/
lemma logb_two_pow (n : ℕ) : Real.logb 2 ((2 : ℝ) ^ n) = n := by
  rw [Real.logb_pow, Real.logb_self_eq_one (by norm_num), mul_one]

/-- C2: for every real sensor-height value the mapper returns exactly the
piecewise closed forms: 0 below 1; `v-1` on [1,2); `v/2` on [2,4);
`v/6+4/3` on [4,10); `v/10+2` on [10,20); `v/180+35/9` on [20,200); 5 at
and above 200; in particular v = 5 yields 13/6. -/
theorem C2_sensor_height_piecewise :
    (∀ v : ℝ, v < 1 → get_5deg_sensor_height_index v = 0) ∧
    (∀ v : ℝ, 1 ≤ v → v < 2 → get_5deg_sensor_height_index v = v - 1) ∧
    (∀ v : ℝ, 2 ≤ v → v < 4 → get_5deg_sensor_height_index v = v / 2) ∧
    (∀ v : ℝ, 4 ≤ v → v < 10 → get_5deg_sensor_height_index v = v / 6 + 4 / 3) ∧
    (∀ v : ℝ, 10 ≤ v → v < 20 → get_5deg_sensor_height_index v = v / 10 + 2) ∧
    (∀ v : ℝ, 20 ≤ v → v < 200 → get_5deg_sensor_height_index v = v / 180 + 35 / 9) ∧
    (∀ v : ℝ, 200 ≤ v → get_5deg_sensor_height_index v = 5) ∧
    get_5deg_sensor_height_index 5 = 13 / 6 := by
  refine ⟨?_, ?_, ?_, ?_, ?_, ?_, ?_, ?_⟩ <;>
    first
      | (intro v h1 h2
         unfold get_5deg_sensor_height_index
         split_ifs <;> linarith)
      | (intro v h1
         unfold get_5deg_sensor_height_index
         split_ifs <;> linarith)
      | (unfold get_5deg_sensor_height_index
         norm_num)

/-- Witness for C2 at the concrete input v = 5 inside segment [4,10). -/
theorem C2_sensor_height_piecewise_witness :
    get_5deg_sensor_height_index 5 = 5 / 6 + 4 / 3 :=
  C2_sensor_height_piecewise.2.2.2.1 5 (by norm_num) (by norm_num)

/-- C3: the methane mapper returns 0 for v ≤ 0, `v/1000` on (0,1000),
`log2(v/500)` at and above 1000; at v = 1000 both branch formulas equal 1
(so the map is continuous at the branch switch, with value 1 there). -/
theorem C3_methane_mapper :
    (∀ v : ℝ, v ≤ 0 → get_5deg_methane_index v = 0) ∧
    (∀ v : ℝ, 0 < v → v < 1000 → get_5deg_methane_index v = v / 1000) ∧
    (∀ v : ℝ, 1000 ≤ v → get_5deg_methane_index v = Real.logb 2 (v / 500)) ∧
    (1000 : ℝ) / 1000 = 1 ∧ Real.logb 2 ((1000 : ℝ) / 500) = 1 ∧
    get_5deg_methane_index 1000 = 1 := by
  have hlogb : Real.logb 2 ((1000 : ℝ) / 500) = 1 := by
    norm_num [Real.logb_self_eq_one]
  refine ⟨?_, ?_, ?_, by norm_num, hlogb, ?_⟩
  · intro v h
    unfold get_5deg_methane_index
    rw [if_pos h]
  · intro v h1 h2
    unfold get_5deg_methane_index
    rw [if_neg (by linarith), if_pos h2]
  · intro v h
    unfold get_5deg_methane_index
    rw [if_neg (by linarith), if_neg (by linarith)]
  · unfold get_5deg_methane_index
    rw [if_neg (by norm_num), if_neg (by norm_num), hlogb]

/-- Witness for C3 at the concrete input v = 500 in the linear region. -/
theorem C3_methane_mapper_witness :
    get_5deg_methane_index 500 = 500 / 1000 :=
  C3_methane_mapper.2.1 500 (by norm_num) (by norm_num)

set_option maxHeartbeats 1600000 in
/-- C9 (implicit): the sensor-height mapper is monotone non-decreasing,
its output lies in [0,5], and at every segment boundary (1, 2, 4, 10, 20,
200) the adjacent closed forms agree (values 0, 1, 2, 3, 4, 5), so the
piecewise map has no jumps. -/
theorem C9_sensor_height_monotone_bounded :
    (∀ a b : ℝ, a ≤ b →
      get_5deg_sensor_height_index a ≤ get_5deg_sensor_height_index b) ∧
    (∀ v : ℝ, 0 ≤ get_5deg_sensor_height_index v ∧
      get_5deg_sensor_height_index v ≤ 5) ∧
    (get_5deg_sensor_height_index 1 = 0 ∧
     get_5deg_sensor_height_index 2 = 1 ∧
     get_5deg_sensor_height_index 4 = 2 ∧
     get_5deg_sensor_height_index 10 = 3 ∧
     get_5deg_sensor_height_index 20 = 4 ∧
     get_5deg_sensor_height_index 200 = 5) := by
  refine ⟨?_, ?_, ?_⟩
  · intro a b hab
    unfold get_5deg_sensor_height_index
    split_ifs <;> linarith
  · intro v
    unfold get_5deg_sensor_height_index
    constructor <;> (split_ifs <;> linarith)
  · refine ⟨?_, ?_, ?_, ?_, ?_, ?_⟩ <;>
      (unfold get_5deg_sensor_height_index; norm_num)

/-- Witness for C9: monotonicity applied at the concrete pair (1, 3). -/
theorem C9_sensor_height_monotone_bounded_witness :
    get_5deg_sensor_height_index 1 ≤ get_5deg_sensor_height_index 3 :=
  C9_sensor_height_monotone_bounded.1 1 3 (by norm_num)

/-- C10 (implicit): mapping the fixed concentration ladder through the
methane mapper yields exactly the fractional indices
(0, 1/2, 1, 2, 3, 4, 5, 6). -/
theorem C10_ladder_indices :
    concentrations.map get_5deg_methane_index =
      [0, 1 / 2, 1, 2, 3, 4, 5, 6] := by
  have h : ∀ n : ℕ, get_5deg_methane_index (500 * 2 ^ (n + 1)) = n + 1 := by
    intro n
    have h2 : (2 : ℝ) ≤ 2 ^ (n + 1) := by
      calc (2 : ℝ) = 2 ^ 1 := by norm_num
      _ ≤ 2 ^ (n + 1) := by
        apply pow_le_pow_right₀ (by norm_num)
        omega
    unfold get_5deg_methane_index
    rw [if_neg (by nlinarith), if_neg (by nlinarith)]
    have : (500 : ℝ) * 2 ^ (n + 1) / 500 = 2 ^ (n + 1) := by ring
    rw [this, logb_two_pow]
    push_cast
    ring
  have h0 : get_5deg_methane_index 0 = 0 := by
    unfold get_5deg_methane_index
    rw [if_pos le_rfl]
  have h500 : get_5deg_methane_index 500 = 1 / 2 := by
    unfold get_5deg_methane_index
    rw [if_neg (by norm_num), if_pos (by norm_num)]
    norm_num
  have e1 := h 0
  have e2 := h 1
  have e3 := h 2
  have e4 := h 3
  have e5 := h 4
  have e6 := h 5
  norm_num at e1 e2 e3 e4 e5 e6
  simp only [concentrations, List.map_cons, List.map_nil]
  rw [h0, h500, e1, e2, e3, e4, e5, e6]

/-- Embeds the fixed scaling constant `SCALING = 1e5`. -/
def SCALING : ℝ := 100000

/-- Embeds `np.log(resampled, out=np.zeros_like(resampled), where=resampled > 0)`:
entries strictly greater than zero are replaced by their natural log,
all other entries by 0. -/
noncomputable def logOrZero (x : ℝ) : ℝ :=
  if 0 < x then Real.log x else 0

/-- Row-vector dot product used by `rads.dot(response)`. -/
def dot (xs ys : List ℝ) : ℝ :=
  (List.zipWith (fun x y => x * y) xs ys).sum

/-- Embeds `np.linalg.lstsq(np.stack((ones, concentrations)).T, lograd)`:
for the full-column-rank two-column design matrix (ones, xs) the unique
ordinary-least-squares solution has slope given by Cramer's rule on the
normal equations. -/
noncomputable def olsSlope (xs ys : List ℝ) : ℝ :=
  ((xs.length : ℝ) * (List.zipWith (fun x y => x * y) xs ys).sum
      - xs.sum * ys.sum) /
    ((xs.length : ℝ) * (xs.map (fun x => x * x)).sum - xs.sum * xs.sum)

/-- Embeds `sigma = fwhm / (2.0 * np.sqrt(2.0 * np.log(2.0)))`. -/
noncomputable def sigmaOfFwhm (fwhm : ℝ) : ℝ :=
  fwhm / (2 * Real.sqrt (2 * Real.log 2))

/-- Embeds the explicit normal-density evaluation
`numer / denom` with `var = sigma ** 2`,
`denom = (2 * np.pi * var) ** 0.5`,
`numer = np.exp(-(wave - center)**2 / (2 * var))`. -/
noncomputable def gaussWeight (sigma center w : ℝ) : ℝ :=
  Real.exp (-(w - center) ^ 2 / (2 * sigma ^ 2)) /
    Real.sqrt (2 * Real.pi * sigma ^ 2)

/-- One band's column of the response matrix: the Gaussian weight at every
native wavelength. -/
noncomputable def bandWeights (wave : List ℝ) (center sigma : ℝ) : List ℝ :=
  wave.map (gaussWeight sigma center)

/-- Embeds
`np.divide(response, response.sum(axis=0), where=response.sum(axis=0) > 0, out=response)`
on one column: divide by the column sum when it is positive, otherwise
keep the raw values. -/
noncomputable def normalizeColumn (ws : List ℝ) : List ℝ :=
  if 0 < ws.sum then ws.map (fun x => x / ws.sum) else ws

/-- Embeds `resampled = rads.dot(response)` with the response matrix given
as its list of band columns. -/
noncomputable def resample (rads cols : List (List ℝ)) : List (List ℝ) :=
  rads.map (fun row => cols.map (fun col => dot row col))

lemma list_sum_map_div (l : List ℝ) (s : ℝ) :
    (l.map (fun x => x / s)).sum = l.sum / s := by
  induction l with
  | nil => simp
  | cons h t ih => simp [ih, add_div]

lemma gaussWeight_nonneg (sigma center w : ℝ) :
    0 ≤ gaussWeight sigma center w :=
  div_nonneg (Real.exp_pos _).le (Real.sqrt_nonneg _)

lemma bandWeights_sum_nonneg (wave : List ℝ) (center sigma : ℝ) :
    0 ≤ (bandWeights wave center sigma).sum := by
  apply List.sum_nonneg
  intro x hx
  simp only [bandWeights, List.mem_map] at hx
  obtain ⟨w, _, rfl⟩ := hx
  exact gaussWeight_nonneg sigma center w

lemma dot_smul_left (c : ℝ) (xs ys : List ℝ) :
    dot (xs.map (fun x => c * x)) ys = c * dot xs ys := by
  induction xs generalizing ys with
  | nil => simp [dot]
  | cons h t ih =>
    cases ys with
    | nil => simp [dot]
    | cons yh yt =>
      simp only [List.map_cons, dot, List.zipWith_cons_cons, List.sum_cons]
      have := ih yt
      simp only [dot] at this
      rw [this, mul_add, mul_assoc]

/-- C6: every resampled radiance value that is zero or negative is mapped
to a log value of exactly 0, and every strictly positive value to its
natural logarithm; no input makes the step fail. -/
theorem C6_log_guard :
    (∀ x : ℝ, x ≤ 0 → logOrZero x = 0) ∧
    (∀ x : ℝ, 0 < x → logOrZero x = Real.log x) := by
  constructor
  · intro x h
    unfold logOrZero
    rw [if_neg (not_lt.mpr h)]
  · intro x h
    unfold logOrZero
    rw [if_pos h]

/-- Witness for C6 at the concrete zero input. -/
theorem C6_log_guard_witness : logOrZero 0 = 0 :=
  C6_log_guard.1 0 le_rfl

/-- C5: the Gaussian weights use `sigma = fwhm / (2 * sqrt (2 * ln 2))`;
whenever a band's weight column has nonzero sum the normalized column sums
to 1, and a column whose sum is exactly zero is left unnormalized (raw
values kept, all of them well-defined nonnegative reals), with no error
raised. -/
theorem C5_response_normalization (wave : List ℝ) (center fwhm : ℝ) :
    sigmaOfFwhm fwhm = fwhm / (2 * Real.sqrt (2 * Real.log 2)) ∧
    ((bandWeights wave center (sigmaOfFwhm fwhm)).sum ≠ 0 →
      (normalizeColumn (bandWeights wave center (sigmaOfFwhm fwhm))).sum = 1) ∧
    ((bandWeights wave center (sigmaOfFwhm fwhm)).sum = 0 →
      normalizeColumn (bandWeights wave center (sigmaOfFwhm fwhm)) =
        bandWeights wave center (sigmaOfFwhm fwhm)) := by
  refine ⟨rfl, ?_, ?_⟩
  · intro hne
    have hpos : 0 < (bandWeights wave center (sigmaOfFwhm fwhm)).sum :=
      lt_of_le_of_ne (bandWeights_sum_nonneg wave center (sigmaOfFwhm fwhm))
        (Ne.symm hne)
    unfold normalizeColumn
    rw [if_pos hpos, list_sum_map_div, div_self hne]
  · intro hz
    unfold normalizeColumn
    rw [if_neg (by rw [hz]; exact lt_irrefl 0)]

/-- Witness for C5 on the concrete empty wavelength grid (sum zero). -/
theorem C5_response_normalization_witness :
    normalizeColumn (bandWeights [] 0 (sigmaOfFwhm 1)) =
      bandWeights [] 0 (sigmaOfFwhm 1) :=
  (C5_response_normalization [] 0 1).2.2 (by simp [bandWeights])

/-- C7: the resampling step is linear in the radiance library — scaling
every library entry by a constant scales every entry of the resampled
output by the same constant. -/
theorem C7_resample_linear (c : ℝ) (rads cols : List (List ℝ)) :
    resample (rads.map (fun row => row.map (fun x => c * x))) cols =
      (resample rads cols).map (fun row => row.map (fun x => c * x)) := by
  unfold resample
  rw [List.map_map, List.map_map]
  apply List.map_congr_left
  intro row _
  simp only [Function.comp_apply, List.map_map]
  apply List.map_congr_left
  intro col _
  simp only [Function.comp_apply]
  exact dot_smul_left c row col

lemma logOrZero_exp (t : ℝ) : logOrZero (Real.exp t) = t := by
  unfold logOrZero
  rw [if_pos (Real.exp_pos t), Real.log_exp]

/-- C1: the OLS fit of log-radiance against the concentration ladder,
with design matrix (ones, concentrations), recovers a synthetic slope
exactly: if the resampled radiance at concentration c is
`exp (a + b * c)` then the regressed coefficient (slope times the scaling
constant) equals `b * SCALING`. -/
theorem C1_slope_recovery (a b : ℝ) :
    olsSlope concentrations
        ((concentrations.map (fun c => Real.exp (a + b * c))).map logOrZero)
        * SCALING = b * SCALING := by
  simp only [concentrations, List.map_cons, List.map_nil, logOrZero_exp]
  unfold olsSlope SCALING
  simp only [List.zipWith_cons_cons, List.zipWith_nil_right, List.sum_cons,
    List.sum_nil, List.map_cons, List.map_nil, List.length_cons,
    List.length_nil]
  push_cast
  rw [div_mul_eq_mul_div, div_eq_iff (by norm_num)]
  ring

/-- A NumPy float64 input value: either a finite real or one of the
non-finite IEEE values (NaN, +Inf, -Inf).  Only finiteness matters to the
validation code, and validated inputs are finite reals. -/
inductive FVal where
  | fin (x : ℝ) : FVal
  | nan : FVal
  | inf : FVal
  | ninf : FVal

/-- Embeds `np.isfinite` on one value. -/
def FVal.isFinite : FVal → Bool
  | .fin _ => true
  | _ => false

/-- The real carried by a finite value (defaulting to 0; only applied
after validation has ruled out the non-finite constructors). -/
def FVal.val : FVal → ℝ
  | .fin x => x
  | _ => 0

/-- Embeds `get_5deg_lookup_index`: the 5-vector of fractional grid
coordinates. -/
noncomputable def get_5deg_lookup_index
    (zenith sensor ground water methane : ℝ) : List ℝ :=
  [get_5deg_zenith_angle_index zenith,
   get_5deg_sensor_height_index sensor,
   get_5deg_ground_altitude_index ground,
   get_5deg_water_vapor_index water,
   get_5deg_methane_index methane]

/-- Embeds `spline_5deg_lookup`.  `interp` abstracts the external
`scipy.ndimage.map_coordinates` spline sampling of the external
`grid_5deg_data` artifact (coordinates and spline order in, one radiance
value per native wavelength out). -/
noncomputable def spline_5deg_lookup (interp : List ℝ → ℕ → List ℝ)
    (zenith sensor ground water methane : ℝ) (order : ℕ) : List ℝ :=
  interp (get_5deg_lookup_index zenith sensor ground water methane) order

/-- Embeds `generate_library`: one interpolated spectrum per ladder
concentration, stacked in ladder order. -/
noncomputable def generate_library (interp : List ℝ → ℕ → List ℝ)
    (zenith sensor ground water : ℝ) (order : ℕ) : List (List ℝ) :=
  concentrations.map
    (fun m => spline_5deg_lookup interp zenith sensor ground water m order)

/-- One band's output coefficient: its resampled radiance column
(library row dotted with the band's normalized weight column), its log
with the zero guard, the OLS slope over the ladder, times `SCALING`. -/
noncomputable def bandCoefficient (rads : List (List ℝ)) (wave : List ℝ)
    (center fwhm : ℝ) : ℝ :=
  olsSlope concentrations
    ((rads.map (fun row =>
        dot row (normalizeColumn (bandWeights wave center (sigmaOfFwhm fwhm))))).map
      logOrZero) * SCALING

/-- The post-validation body of `generate_template_from_bands`: the
`np.stack((np.arange(1, n+1), centers, spectrum)).T` table of
(1-based band index, band center, absorption coefficient) rows. -/
noncomputable def buildTemplate (interp : List ℝ → ℕ → List ℝ)
    (wave : List ℝ) (centers fwhm : List ℝ)
    (zenith sensor ground water : ℝ) (order : ℕ) : List (ℝ × ℝ × ℝ) :=
  (List.zip centers fwhm).enum.map (fun p =>
    (((p.1 + 1 : ℕ) : ℝ), p.2.1,
      bandCoefficient (generate_library interp zenith sensor ground water order)
        wave p.2.1 p.2.2))

/-- Embeds `generate_template_from_bands`: validate finiteness of band
centers and FWHM, then validate equal lengths, then build the template;
a `RuntimeError` becomes `Except.error` with the source's message. -/
noncomputable def generate_template_from_bands (interp : List ℝ → ℕ → List ℝ)
    (wave : List ℝ) (centers fwhm : List FVal)
    (zenith sensor ground water : ℝ) (order : ℕ) :
    Except String (List (ℝ × ℝ × ℝ)) :=
  if centers.any (fun c => ! c.isFinite) || fwhm.any (fun g => ! g.isFinite) then
    Except.error
      "Band Wavelengths Centers/FWHM data contains non-finite data (NaN or Inf)."
  else if centers.length ≠ fwhm.length then
    Except.error
      "Length of band center wavelengths and band fwhm arrays must be equal."
  else
    Except.ok (buildTemplate interp wave (centers.map FVal.val)
      (fwhm.map FVal.val) zenith sensor ground water order)

/-- The input-validation condition of `generate_template_from_bands`:
some band center or FWHM is non-finite, or the sequences differ in
length. -/
def invalidBands (centers fwhm : List FVal) : Prop :=
  (∃ c ∈ centers, c.isFinite = false) ∨ (∃ g ∈ fwhm, g.isFinite = false) ∨
    centers.length ≠ fwhm.length

lemma nonfinite_cond_iff (centers fwhm : List FVal) :
    (centers.any (fun c => ! c.isFinite) || fwhm.any (fun g => ! g.isFinite))
        = true ↔
      (∃ c ∈ centers, c.isFinite = false) ∨
        (∃ g ∈ fwhm, g.isFinite = false) := by
  simp [List.any_eq_true]

/-- C4: `generate_template_from_bands` fails with a validation error
exactly when some band center or FWHM is non-finite or the two sequences
differ in length; and on any invalid input the result is the same
whatever the grid interpolator, wavelength axis, scene parameters and
spline order are — the check happens before any grid access, so no
library is built and no partial output is produced. -/
theorem C4_validation (interp : List ℝ → ℕ → List ℝ) (wave : List ℝ)
    (centers fwhm : List FVal) (zenith sensor ground water : ℝ) (order : ℕ) :
    ((∃ e, generate_template_from_bands interp wave centers fwhm
        zenith sensor ground water order = Except.error e) ↔
      invalidBands centers fwhm) ∧
    (invalidBands centers fwhm →
      ∀ (interp2 : List ℝ → ℕ → List ℝ) (wave2 : List ℝ)
        (zenith2 sensor2 ground2 water2 : ℝ) (order2 : ℕ),
        generate_template_from_bands interp wave centers fwhm
            zenith sensor ground water order =
          generate_template_from_bands interp2 wave2 centers fwhm
            zenith2 sensor2 ground2 water2 order2) := by
  by_cases h1 : (centers.any (fun c => ! c.isFinite) ||
      fwhm.any (fun g => ! g.isFinite)) = true
  · constructor
    · simp only [generate_template_from_bands, if_pos h1]
      constructor
      · intro _
        exact Or.elim ((nonfinite_cond_iff centers fwhm).mp h1)
          (fun h => Or.inl h) (fun h => Or.inr (Or.inl h))
      · intro _
        exact ⟨_, rfl⟩
    · intro _ interp2 wave2 zenith2 sensor2 ground2 water2 order2
      simp only [generate_template_from_bands, if_pos h1]
  · by_cases h2 : centers.length = fwhm.length
    · constructor
      · simp only [generate_template_from_bands, if_neg h1, h2, ne_eq,
          not_true_eq_false, if_false, reduceIte]
        constructor
        · intro ⟨e, he⟩
          exact absurd he (by simp)
        · intro hinv
          rcases hinv with h | h | h
          · exact absurd ((nonfinite_cond_iff centers fwhm).mpr (Or.inl h)) h1
          · exact absurd ((nonfinite_cond_iff centers fwhm).mpr (Or.inr h)) h1
          · exact absurd h2 h
      · intro hinv
        rcases hinv with h | h | h
        · exact absurd ((nonfinite_cond_iff centers fwhm).mpr (Or.inl h)) h1
        · exact absurd ((nonfinite_cond_iff centers fwhm).mpr (Or.inr h)) h1
        · exact absurd h2 h
    · constructor
      · simp only [generate_template_from_bands, if_neg h1, ne_eq, h2,
          not_false_eq_true, if_true, reduceIte]
        constructor
        · intro _
          exact Or.inr (Or.inr h2)
        · intro _
          exact ⟨_, rfl⟩
      · intro _ interp2 wave2 zenith2 sensor2 ground2 water2 order2
        simp only [generate_template_from_bands, if_neg h1, ne_eq, h2,
          not_false_eq_true, if_true, reduceIte]

/-- Witness for C4: on the concrete invalid input (a NaN band center,
empty FWHM list) two runs with entirely different grid interpolators,
wavelength axes and scene parameters produce the same (error) result. -/
theorem C4_validation_witness :
    generate_template_from_bands (fun _ _ => []) [] [FVal.nan] [] 0 0 0 0 1 =
      generate_template_from_bands (fun _ _ => [1]) [2] [FVal.nan] [] 3 4 5 6 3 :=
  (C4_validation (fun _ _ => []) [] [FVal.nan] [] 0 0 0 0 1).2
    (Or.inl ⟨FVal.nan, by simp, rfl⟩) (fun _ _ => [1]) [2] 3 4 5 6 3

/-- C8: the pipeline is deterministic — two runs of
`generate_template_from_bands` on identical inputs (there is no other
state: the grid interpolator and all scene data are the explicit inputs)
produce identical output. -/
theorem C8_deterministic (interp1 interp2 : List ℝ → ℕ → List ℝ)
    (wave1 wave2 : List ℝ) (centers1 centers2 fwhm1 fwhm2 : List FVal)
    (z1 z2 s1 s2 g1 g2 w1 w2 : ℝ) (o1 o2 : ℕ)
    (hinterp : interp1 = interp2) (hwave : wave1 = wave2)
    (hcenters : centers1 = centers2) (hfwhm : fwhm1 = fwhm2)
    (hz : z1 = z2) (hs : s1 = s2) (hg : g1 = g2) (hw : w1 = w2)
    (ho : o1 = o2) :
    generate_template_from_bands interp1 wave1 centers1 fwhm1 z1 s1 g1 w1 o1 =
      generate_template_from_bands interp2 wave2 centers2 fwhm2 z2 s2 g2 w2 o2 := by
  rw [hinterp, hwave, hcenters, hfwhm, hz, hs, hg, hw, ho]

/-- Witness for C8 at concrete inputs: two identical runs coincide. -/
theorem C8_deterministic_witness :
    generate_template_from_bands (fun _ _ => [1]) [2] [FVal.fin 3] [FVal.fin 4]
        0 0 0 0 1 =
      generate_template_from_bands (fun _ _ => [1]) [2] [FVal.fin 3] [FVal.fin 4]
        0 0 0 0 1 :=
  C8_deterministic (fun _ _ => [1]) (fun _ _ => [1]) [2] [2] [FVal.fin 3]
    [FVal.fin 3] [FVal.fin 4] [FVal.fin 4] 0 0 0 0 0 0 0 0 1 1
    rfl rfl rfl rfl rfl rfl rfl rfl rfl
